import Mathlib

/-!
# ReBeT quality-requirement decorators (`rebet/qr_node.h`)

A shallow embedding of the three decorator classes of `qr_node.h`
(`QRNode`, `TaskLevelQR`, `SystemLevelQR`) and of the parts of the
behaviour-tree engine they call, followed by theorems about them.

Conventions of the embedding

* `double` is `Dbl`, IEEE-754 binary64: a finite value is held as the
  rational it denotes, and every addition, subtraction and division gives its
  exact result rounded to the nearest double, ties to even (`Dbl.round`),
  with overflow to an infinity and gradual underflow; `+inf`, `-inf` and
  `NaN` are values.  The two zeros are one value and so are all NaNs: the
  sign of a zero could only show in a division by it, and the one divisor of
  the header is a cast from `int`.
* `int` is `Int`, an increment wraps at 32 bits (`wrapInt32`).
* `std::map<std::string,double>` is a lookup function `String → Option Dbl`;
  `m[k] = v` is `MetricMap.assign`.
* `throw LogicError(...)` is the `Except.error` result of a tick.
* The virtual `calculate_measure` is an argument of the two `tick` methods:
  any function on the object state, for the override the object dispatches
  to; `QRNode.calculate_measure` is the base implementation.
* `TaskLevelQR` adds nothing to `QRNode`; its state and its `tick` are those
  of `QRNode`.
* The engine calls (`executeTick` and `resetChild` on the child, the
  recursive visitor) are not part of the header; the first two are
  parameters (`Engine`), the visitor is modelled from its description.
-/

namespace BT

/-! ## Values -/

/-- A `double`: a finite value, held as the rational it denotes, or one of
the non-finite IEEE-754 values. -/
inductive Dbl where
  | fin (q : ℚ)
  | pinf
  | ninf
  | nan
  deriving DecidableEq

namespace Dbl

/-- The number of binary digits of `n`, for `fuel` at least that number
(it is called with `fuel = n`). -/
def bitLength : Nat → Nat → Nat
  | 0, _ => 0
  | fuel + 1, n => if n = 0 then 0 else bitLength fuel (n / 2) + 1

/-- Rounding of the positive rational `n / d` to binary64, to nearest with
ties to even: the value of the double, or `none` when the result overflows.
With `l` the difference of the bit lengths, `n / d` lies between `2 ^ (l - 1)`
and `2 ^ (l + 1)`, and `L` is the exponent of its leading bit.  The exponent
`e` of the last place is that of a 53-bit significand, and not below -1074
(subnormal range); `m` is the quotient by `2 ^ e` rounded to an integer; the
result overflows when it reaches `2 ^ 1024`. -/
def roundPos (n d : Nat) : Option ℚ :=
  let l : Int := (bitLength n n : Int) - (bitLength d d : Int)
  let ge : Bool :=
    if 0 ≤ l then decide (d * 2 ^ l.toNat ≤ n) else decide (d ≤ n * 2 ^ (-l).toNat)
  let L : Int := if ge then l else l - 1
  let e : Int := max (L - 52) (-1074)
  let N : Nat := if 0 ≤ e then n else n * 2 ^ (-e).toNat
  let D : Nat := if 0 ≤ e then d * 2 ^ e.toNat else d
  let m0 := N / D
  let r := N % D
  let m := if D < 2 * r ∨ (2 * r = D ∧ m0 % 2 = 1) then m0 + 1 else m0
  if 971 < e ∨ (e = 971 ∧ m = 9007199254740992) then none
  else some (mkRat (m * 2 ^ e.toNat : Nat) (2 ^ (-e).toNat))

/-- The double nearest to a rational (IEEE-754 round to nearest, ties to
even), an infinity when the rational is beyond the finite range. -/
def round (q : ℚ) : Dbl :=
  if q.num = 0 then fin 0
  else
    match roundPos q.num.natAbs q.den with
    | none => if 0 < q.num then pinf else ninf
    | some v => fin (if 0 < q.num then v else -v)

/-- Whether a rational is the value of a double: rounding leaves it as it is. -/
def representable (q : ℚ) : Bool := decide (round q = fin q)

/-- Whether a value of `Dbl` is a double: a finite one holds a rational that
binary64 represents. -/
def isDouble : Dbl → Bool
  | fin q => representable q
  | _ => true

/-- Unary minus. -/
def neg : Dbl → Dbl
  | fin q => fin (-q)
  | pinf => ninf
  | ninf => pinf
  | nan => nan

/-- IEEE-754 addition: the exact sum of two finite values, rounded. -/
def add : Dbl → Dbl → Dbl
  | fin a, fin b => round (a + b)
  | nan, _ => nan
  | _, nan => nan
  | pinf, ninf => nan
  | ninf, pinf => nan
  | pinf, _ => pinf
  | _, pinf => pinf
  | ninf, _ => ninf
  | _, ninf => ninf

/-- Subtraction `a - b`. -/
def sub (a b : Dbl) : Dbl := add a (neg b)

/-- IEEE-754 division: the exact quotient of two finite values, rounded, when
the divisor is not zero.  A zero divisor is the positive zero (the only zero
a cast from `int` gives). -/
def div : Dbl → Dbl → Dbl
  | nan, _ => nan
  | _, nan => nan
  | fin a, fin b =>
    if b = 0 then (if a = 0 then nan else if 0 < a then pinf else ninf)
    else round (a / b)
  | fin _, pinf => fin 0
  | fin _, ninf => fin 0
  | pinf, fin b => if 0 ≤ b then pinf else ninf
  | ninf, fin b => if 0 ≤ b then ninf else pinf
  | pinf, pinf => nan
  | pinf, ninf => nan
  | ninf, pinf => nan
  | ninf, ninf => nan

/-- The cast `(double)i` of an `int`, exact for every 32-bit value. -/
def ofInt (i : Int) : Dbl := fin (i : ℚ)

end Dbl

/-- Two's-complement wrap of an integer into the range of a 32-bit `int`:
what `++` leaves in an `int` once the exact result is out of range (the
language leaves that case undefined; the wrap is what the hardware does). -/
def wrapInt32 (x : Int) : Int := (x + 2147483648) % 4294967296 - 2147483648

/-- The engine's `NodeStatus`. -/
inductive NodeStatus where
  | IDLE
  | RUNNING
  | SUCCESS
  | FAILURE
  | SKIPPED
  deriving DecidableEq, Repr

/-- The `enum class QualityAttribute`. -/
inductive QualityAttribute where
  | Power
  | Safety
  | TaskEfficiency
  | MovementEfficiency
  | Test
  deriving DecidableEq, Repr

/-! ## The tree below a decorator -/

/-- A node of the behaviour tree, by dynamic type.  `registrationName` is the
name the node kind was registered under; a `TaskLevelQR` or `SystemLevelQR`
carries the two fields the accessors `qa_type()` and `current_metric()` read.
A decorator that is neither (a plain `QRNode` included) is `decorator`. -/
inductive TreeNode where
  | leaf (registrationName : String)
  | control (registrationName : String) (children : List TreeNode)
  | decorator (registrationName : String) (child : TreeNode)
  | taskLevelQR (registrationName : String) (_quality_attribute : QualityAttribute)
      (_metric : Dbl) (child : TreeNode)
  | systemLevelQR (registrationName : String) (_quality_attribute : QualityAttribute)
      (_metric : Dbl) (child : TreeNode)

namespace TreeNode

/-- Accessor `TreeNode::registrationName()`. -/
def registrationName : TreeNode → String
  | leaf n => n
  | control n _ => n
  | decorator n _ => n
  | taskLevelQR n _ _ _ => n
  | systemLevelQR n _ _ _ => n

mutual
/-- Every node of the subtree rooted at a node, the root included. -/
def nodes : TreeNode → List TreeNode
  | leaf n => [leaf n]
  | control n cs => control n cs :: nodesOfList cs
  | decorator n c => decorator n c :: nodes c
  | taskLevelQR n qa m c => taskLevelQR n qa m c :: nodes c
  | systemLevelQR n qa m c => systemLevelQR n qa m c :: nodes c
/-- Every node of the subtrees rooted in a list of siblings. -/
def nodesOfList : List TreeNode → List TreeNode
  | [] => []
  | c :: cs => nodes c ++ nodesOfList cs
end

end TreeNode

mutual
/-- Modelled from the spec: the engine's `BT::applyRecursiveVisitor`, which is
not in the header: a depth-first walk that invokes the callback once on every
node of the subtree, a node before its children, children in order. -/
def applyRecursiveVisitor {σ : Type} (visitor : TreeNode → σ → σ) : TreeNode → σ → σ
  | TreeNode.leaf n, s => visitor (TreeNode.leaf n) s
  | TreeNode.control n cs, s =>
    applyRecursiveVisitorList visitor cs (visitor (TreeNode.control n cs) s)
  | TreeNode.decorator n c, s =>
    applyRecursiveVisitor visitor c (visitor (TreeNode.decorator n c) s)
  | TreeNode.taskLevelQR n qa m c, s =>
    applyRecursiveVisitor visitor c (visitor (TreeNode.taskLevelQR n qa m c) s)
  | TreeNode.systemLevelQR n qa m c, s =>
    applyRecursiveVisitor visitor c (visitor (TreeNode.systemLevelQR n qa m c) s)
/-- The visitor's loop over the children of a control node. -/
def applyRecursiveVisitorList {σ : Type} (visitor : TreeNode → σ → σ) :
    List TreeNode → σ → σ
  | [], s => s
  | c :: cs, s => applyRecursiveVisitorList visitor cs (applyRecursiveVisitor visitor c s)
end

/-! ## `std::map<std::string, double>` -/

/-- A `std::map<std::string,double>` by its lookup: `none` where the key is absent. -/
abbrev MetricMap := String → Option Dbl

namespace MetricMap

/-- The empty map of a freshly constructed node. -/
def empty : MetricMap := fun _ => none

/-- The assignment `m[k] = v`: inserts the key or overwrites its entry. -/
def assign (m : MetricMap) (k : String) (v : Dbl) : MetricMap :=
  fun k' => if k' = k then some v else m k'

/-- Whether a key is in the map. -/
def contains (m : MetricMap) (k : String) : Bool := (m k).isSome

end MetricMap

/-! ## The engine -/

/-- The message a `LogicError` carries (its arguments concatenated). -/
structure LogicError where
  what : String
  deriving DecidableEq, Repr

/-- The two engine operations a decorator applies to its child, parameters
of the embedding: `child_node_->executeTick()` gives the status the child
reports and the subtree after its tick, `resetChild()` the subtree after the
reset. -/
structure Engine where
  executeTick : TreeNode → NodeStatus × TreeNode
  resetChild : TreeNode → TreeNode

/-- The calls a tick makes, in the order it makes them. -/
inductive Event where
  | setStatus (s : NodeStatus)
  | calculate_measure
  | executeTick
  | resetChild
  deriving DecidableEq, Repr

/-- A tick under way: the object and the calls made so far. -/
structure Frame (σ : Type) where
  node : σ
  trace : List Event

/-- One call: it acts on the object and is appended to the trace. -/
def Frame.call {σ : Type} (ev : Event) (f : σ → σ) (fr : Frame σ) : Frame σ :=
  { node := f fr.node, trace := fr.trace ++ [ev] }

/-- What a tick leaves: the status returned or the exception raised, the
object at that moment, and the calls made. -/
structure TickOutcome (σ : Type) where
  result : Except LogicError NodeStatus
  node : σ
  trace : List Event

/-! ## `class QRNode` -/

/-- The object state of a `QRNode`: the fields of the class, what it inherits
from the engine (`name`, `status`, `child_node_`) and the two ports its
methods touch (`weight_port` is the value bound to the input port `weight`,
`none` when nothing is bound; `metric_port` is the last value written to the
output port `metric`). -/
structure QRNode where
  name : String
  status : NodeStatus
  child_node_ : TreeNode
  weight_port : Option Int
  metric_port : Option Dbl
  weight_ : Int
  read_parameter_from_ports_ : Bool
  _quality_attribute : QualityAttribute
  _times_calculated : Int
  _average_metric : Dbl
  _metric : Dbl
  _higher_is_better : Bool

namespace QRNode

/-- The constructor: it sets the attribute, `_average_metric = 0.0` and
`_times_calculated = 0`; `_higher_is_better` has its default `true`.  The
fields it leaves uninitialised (`_metric`, `weight_`,
`read_parameter_from_ports_`) are arguments. -/
def new (name : String) (child : TreeNode) (weight_port : Option Int)
    (quality_attribute : QualityAttribute)
    (uninit_metric : Dbl) (uninit_weight : Int) (uninit_flag : Bool) : QRNode :=
  { name := name
    status := NodeStatus.IDLE
    child_node_ := child
    weight_port := weight_port
    metric_port := none
    weight_ := uninit_weight
    read_parameter_from_ports_ := uninit_flag
    _quality_attribute := quality_attribute
    _times_calculated := 0
    _average_metric := Dbl.fin 0
    _metric := uninit_metric
    _higher_is_better := true }

/-- Accessor `qa_type()`. -/
def qa_type (self : QRNode) : QualityAttribute := self._quality_attribute

/-- Accessor `current_metric()`. -/
def current_metric (self : QRNode) : Dbl := self._metric

/-- Accessor `is_higher_better()`. -/
def is_higher_better (self : QRNode) : Bool := self._higher_is_better

/-- The engine's `setStatus`. -/
def setStatus (s : NodeStatus) (self : QRNode) : QRNode := { self with status := s }

/-- The child's `executeTick()`, as it changes the object: the subtree is the
one the child's tick leaves. -/
def tickChild (eng : Engine) (self : QRNode) : QRNode :=
  { self with child_node_ := (eng.executeTick self.child_node_).2 }

/-- The decorator's `resetChild()`. -/
def resetChild (eng : Engine) (self : QRNode) : QRNode :=
  { self with child_node_ := eng.resetChild self.child_node_ }

/-- The method `metric_mean`. -/
def metric_mean (self : QRNode) : QRNode :=
  let new_average :=
    Dbl.add self._average_metric
      (Dbl.div (Dbl.sub self._metric self._average_metric) (Dbl.ofInt self._times_calculated))
  { self with _average_metric := new_average }

/-- The method `output_metric`: `setOutput(METRIC, _metric)`, then
`_times_calculated++`. -/
def output_metric (self : QRNode) : QRNode :=
  { self with
    metric_port := some self._metric
    _times_calculated := wrapInt32 (self._times_calculated + 1) }

/-- The base `calculate_measure`: `getInput(WEIGHT, weight_)` stores the bound
value in `weight_` and returns a result the method does not look at; with
nothing bound `weight_` keeps its value.  The two lines it prints are not
part of the state. -/
def calculate_measure (self : QRNode) : QRNode :=
  match self.weight_port with
  | some w => { self with weight_ := w }
  | none => self

/-- The method `QRNode::tick`, for the `calculate_measure` the object
dispatches to.  The `return status()` after the switch is not reached: the
five cases are all the values of the enumeration. -/
def tick (eng : Engine) (calculate_measure : QRNode → QRNode) (self : QRNode) :
    TickOutcome QRNode :=
  let f0 : Frame QRNode := { node := self, trace := [] }
  let f1 := f0.call (Event.setStatus NodeStatus.RUNNING) (setStatus NodeStatus.RUNNING)
  let f2 := f1.call Event.calculate_measure calculate_measure
  let child_status := (eng.executeTick f2.node.child_node_).1
  let f3 := f2.call Event.executeTick (tickChild eng)
  match child_status with
  | NodeStatus.SUCCESS =>
    let f4 := f3.call Event.calculate_measure calculate_measure
    let f5 := f4.call Event.resetChild (resetChild eng)
    { result := Except.ok NodeStatus.SUCCESS, node := f5.node, trace := f5.trace }
  | NodeStatus.FAILURE =>
    let f4 := f3.call Event.resetChild (resetChild eng)
    { result := Except.ok NodeStatus.FAILURE, node := f4.node, trace := f4.trace }
  | NodeStatus.RUNNING =>
    { result := Except.ok NodeStatus.RUNNING, node := f3.node, trace := f3.trace }
  | NodeStatus.SKIPPED =>
    { result := Except.ok NodeStatus.SKIPPED, node := f3.node, trace := f3.trace }
  | NodeStatus.IDLE =>
    { result := Except.error
        { what := "[" ++ f3.node.name ++ "]: A child should not return IDLE" }
      node := f3.node, trace := f3.trace }

/-- The status the wrapped child reports in `QRNode::tick`: the child is
ticked after the first `calculate_measure`. -/
def childStatus (eng : Engine) (calculate_measure : QRNode → QRNode) (self : QRNode) :
    NodeStatus :=
  (eng.executeTick (calculate_measure (setStatus NodeStatus.RUNNING self)).child_node_).1

/-- A measurement pass of a concrete kind, as section 4.1 of the design
describes it: the kind computes `_metric` (here: the value `m`), then calls
`output_metric` and `metric_mean`. -/
def measurement_pass (m : Dbl) (self : QRNode) : QRNode :=
  metric_mean (output_metric { self with _metric := m })

end QRNode

/-! ## `class TaskLevelQR` -/

/-- The object state of a `TaskLevelQR`: the class adds no field and
overrides no method of `QRNode`. -/
abbrev TaskLevelQR := QRNode

/-- The constructor of `TaskLevelQR`: it only calls the base constructor. -/
def TaskLevelQR.new (name : String) (child : TreeNode) (weight_port : Option Int)
    (quality_attribute : QualityAttribute)
    (uninit_metric : Dbl) (uninit_weight : Int) (uninit_flag : Bool) : TaskLevelQR :=
  QRNode.new name child weight_port quality_attribute uninit_metric uninit_weight uninit_flag

/-! ## `class SystemLevelQR` -/

/-- The object state of a `SystemLevelQR`: a `QRNode` and `_sub_qr_metrics`. -/
structure SystemLevelQR extends QRNode where
  _sub_qr_metrics : MetricMap

namespace SystemLevelQR

/-- The constructor: the base constructor; the map starts empty. -/
def new (name : String) (child : TreeNode) (weight_port : Option Int)
    (quality_attribute : QualityAttribute)
    (uninit_metric : Dbl) (uninit_weight : Int) (uninit_flag : Bool) : SystemLevelQR :=
  { toQRNode := QRNode.new name child weight_port quality_attribute
      uninit_metric uninit_weight uninit_flag
    _sub_qr_metrics := MetricMap.empty }

/-- The lambda `node_visitor` of `gather_child_metrics`, for the attribute of
the capturing object: the cast to `TaskLevelQR*` succeeds on a `TaskLevelQR`
only, and an entry is assigned when the attributes are equal. -/
def node_visitor (quality_attribute : QualityAttribute) (node : TreeNode)
    (sub_qr_metrics : MetricMap) : MetricMap :=
  match node with
  | TreeNode.taskLevelQR task_qr_name qa task_qr_metric _ =>
    if quality_attribute = qa then sub_qr_metrics.assign task_qr_name task_qr_metric
    else sub_qr_metrics
  | _ => sub_qr_metrics

/-- The method `gather_child_metrics`: the visitor is applied to the subtree
rooted at `child_node_`. -/
def gather_child_metrics (self : SystemLevelQR) : SystemLevelQR :=
  { self with
    _sub_qr_metrics :=
      applyRecursiveVisitor (node_visitor self._quality_attribute) self.child_node_
        self._sub_qr_metrics }

/-- The engine's `setStatus`. -/
def setStatus (s : NodeStatus) (self : SystemLevelQR) : SystemLevelQR :=
  { self with status := s }

/-- The child's `executeTick()`, as it changes the object. -/
def tickChild (eng : Engine) (self : SystemLevelQR) : SystemLevelQR :=
  { self with child_node_ := (eng.executeTick self.child_node_).2 }

/-- The decorator's `resetChild()`. -/
def resetChild (eng : Engine) (self : SystemLevelQR) : SystemLevelQR :=
  { self with child_node_ := eng.resetChild self.child_node_ }

/-- The method `SystemLevelQR::tick`, for the `calculate_measure` the object
dispatches to. -/
def tick (eng : Engine) (calculate_measure : SystemLevelQR → SystemLevelQR)
    (self : SystemLevelQR) : TickOutcome SystemLevelQR :=
  let f0 : Frame SystemLevelQR := { node := self, trace := [] }
  let f1 := f0.call (Event.setStatus NodeStatus.RUNNING) (setStatus NodeStatus.RUNNING)
  let child_status := (eng.executeTick f1.node.child_node_).1
  let f2 := f1.call Event.executeTick (tickChild eng)
  match child_status with
  | NodeStatus.SUCCESS =>
    let f3 := f2.call Event.resetChild (resetChild eng)
    { result := Except.ok NodeStatus.SUCCESS, node := f3.node, trace := f3.trace }
  | NodeStatus.FAILURE =>
    let f3 := f2.call Event.resetChild (resetChild eng)
    { result := Except.ok NodeStatus.FAILURE, node := f3.node, trace := f3.trace }
  | NodeStatus.RUNNING =>
    let f3 := f2.call Event.calculate_measure calculate_measure
    { result := Except.ok NodeStatus.RUNNING, node := f3.node, trace := f3.trace }
  | NodeStatus.SKIPPED =>
    { result := Except.ok NodeStatus.SKIPPED, node := f2.node, trace := f2.trace }
  | NodeStatus.IDLE =>
    { result := Except.error
        { what := "[" ++ f2.node.name ++ "]: A child should not return IDLE" }
      node := f2.node, trace := f2.trace }

/-- The status the wrapped child reports in `SystemLevelQR::tick`: the child
is ticked right after `setStatus`. -/
def childStatus (eng : Engine) (self : SystemLevelQR) : NodeStatus :=
  (eng.executeTick self.child_node_).1

end SystemLevelQR

/-- Whether a node is a `TaskLevelQR` whose quality attribute is the given
one: the nodes a `SystemLevelQR` with that attribute is to collect. -/
def SystemLevelQR.isMatchingTask (quality_attribute : QualityAttribute) : TreeNode → Bool
  | TreeNode.taskLevelQR _ qa _ _ => decide (quality_attribute = qa)
  | _ => false

/-! ## Fixtures -/

/-- An engine whose child reports the given status and keeps its subtree. -/
def constEngine (s : NodeStatus) : Engine :=
  { executeTick := fun c => (s, c), resetChild := fun c => c }

/-- A freshly constructed `QRNode` around a leaf. -/
def sampleQR : QRNode :=
  QRNode.new "qr" (TreeNode.leaf "action") (some 1) QualityAttribute.Power (Dbl.fin 0) 0 false

/-- A freshly constructed `SystemLevelQR` around a leaf. -/
def sampleSys : SystemLevelQR :=
  SystemLevelQR.new "sys" (TreeNode.leaf "action") (some 1) QualityAttribute.Power
    (Dbl.fin 0) 0 false

/-- A freshly constructed `QRNode` whose kind has just computed the metric 1. -/
def sampleMeasured : QRNode := { sampleQR with _metric := Dbl.fin 1 }

/-- A measurement function of a system-level kind: it gathers the metrics of
the subtree and records one measurement pass with the value 1. -/
def sampleSysMeasure (self : SystemLevelQR) : SystemLevelQR :=
  let g := self.gather_child_metrics
  { g with toQRNode := QRNode.measurement_pass (Dbl.fin 1) g.toQRNode }

/-- The subtree of the end-to-end scenario: a sequence of a `TaskLevelQR` for
Power registered as "task1", whose metric is `v`, and a `TaskLevelQR` for
Safety registered as `safetyName`, whose metric is `w`. -/
def scenarioTree (v : Dbl) (safetyName : String) (w : Dbl) : TreeNode :=
  TreeNode.control "Sequence"
    [TreeNode.taskLevelQR "task1" QualityAttribute.Power v (TreeNode.leaf "action1"),
     TreeNode.taskLevelQR safetyName QualityAttribute.Safety w (TreeNode.leaf "action2")]

/-- A subtree with matching and other nodes at several depths: "t1" (Power)
under a sequence, "t2" (Safety) below it, "t3" (Power) under a nested
`SystemLevelQR` inside a fallback, and a `SystemLevelQR` for Power. -/
def nestedTree : TreeNode :=
  TreeNode.control "Sequence"
    [TreeNode.taskLevelQR "t1" QualityAttribute.Power (Dbl.fin 5)
       (TreeNode.taskLevelQR "t2" QualityAttribute.Safety (Dbl.fin 7) (TreeNode.leaf "a")),
     TreeNode.control "Fallback"
       [TreeNode.leaf "b",
        TreeNode.systemLevelQR "s1" QualityAttribute.Power (Dbl.fin 9)
          (TreeNode.decorator "Inverter"
            (TreeNode.taskLevelQR "t3" QualityAttribute.Power (Dbl.fin 3)
              (TreeNode.leaf "c")))]]

/-- A freshly constructed `SystemLevelQR` for Power around `nestedTree`. -/
def nestedSys : SystemLevelQR :=
  SystemLevelQR.new "sys" nestedTree (some 1) QualityAttribute.Power (Dbl.fin 0) 0 false

/-- A `SystemLevelQR` for Power whose subtree holds a matching `TaskLevelQR`
registered as "old". -/
def staleSys : SystemLevelQR :=
  SystemLevelQR.new "sys"
    (TreeNode.control "Sequence"
      [TreeNode.taskLevelQR "old" QualityAttribute.Power (Dbl.fin 1) (TreeNode.leaf "a")])
    (some 1) QualityAttribute.Power (Dbl.fin 0) 0 false

/-- The object `staleSys` after one aggregation pass and the removal of the
node "old" from its subtree, which is now a sequence of one action. -/
def staleSysNext : SystemLevelQR :=
  { staleSys.gather_child_metrics with
    child_node_ := TreeNode.control "Sequence" [TreeNode.leaf "a"] }

/-- The `calculate_measure` a `SystemLevelQR` inherits: the class does not
override the base implementation, which acts on the `QRNode` part. -/
def SystemLevelQR.calculate_measure (self : SystemLevelQR) : SystemLevelQR :=
  { self with toQRNode := QRNode.calculate_measure self.toQRNode }

/-- The nodes of a subtree in the order in which the recursive visitor invokes
its callback on them. -/
def visitOrder (t : TreeNode) : List TreeNode :=
  applyRecursiveVisitor (fun n acc => acc ++ [n]) t []

/-- A freshly constructed `QRNode` with nothing bound to its `weight` port;
its uninitialised `weight_` holds 7. -/
def unboundQR : QRNode :=
  QRNode.new "qr" (TreeNode.leaf "action") none QualityAttribute.Power (Dbl.fin 0) 7 false

/-- A `QRNode` whose count has reached the largest `int`. -/
def saturatedQR : QRNode := { sampleQR with _times_calculated := 2147483647 }

/-- A subtree in which two `TaskLevelQR` for Power are registered under the
same name "dup", the first with metric 1 above the second with metric 2,
next to a `TaskLevelQR` for Safety registered as "dup" as well. -/
def collisionTree : TreeNode :=
  TreeNode.control "Sequence"
    [TreeNode.taskLevelQR "dup" QualityAttribute.Power (Dbl.fin 1)
       (TreeNode.taskLevelQR "dup" QualityAttribute.Power (Dbl.fin 2) (TreeNode.leaf "a")),
     TreeNode.taskLevelQR "dup" QualityAttribute.Safety (Dbl.fin 3) (TreeNode.leaf "b")]

/-- A `SystemLevelQR` for Power around `collisionTree` whose map already holds
the entries "dup" and "kept". -/
def collisionSys : SystemLevelQR :=
  { SystemLevelQR.new "sys" collisionTree (some 1) QualityAttribute.Power (Dbl.fin 0) 0 false
    with _sub_qr_metrics :=
      (MetricMap.empty.assign "dup" (Dbl.fin 8)).assign "kept" (Dbl.fin 9) }

/-- The operations of `QRNode` that a measurement function is made of: the
assignment of a computed value to `_metric`, and the calls of `output_metric`,
`metric_mean` and the base `calculate_measure`. -/
inductive Op where
  | set_metric (m : Dbl)
  | output_metric
  | metric_mean
  | calculate_measure
  deriving DecidableEq

/-- The effect of one operation on the object. -/
def Op.apply : Op → QRNode → QRNode
  | Op.set_metric m, st => { st with _metric := m }
  | Op.output_metric, st => st.output_metric
  | Op.metric_mean, st => st.metric_mean
  | Op.calculate_measure, st => st.calculate_measure

/-- The calls of `QRNode::tick`, by the status the child reports. -/
theorem qrnode_tick_trace (eng : Engine) (measure : QRNode → QRNode) (q : QRNode) :
    (QRNode.tick eng measure q).trace =
      match QRNode.childStatus eng measure q with
      | NodeStatus.SUCCESS =>
        [Event.setStatus NodeStatus.RUNNING, Event.calculate_measure, Event.executeTick,
          Event.calculate_measure, Event.resetChild]
      | NodeStatus.FAILURE =>
        [Event.setStatus NodeStatus.RUNNING, Event.calculate_measure, Event.executeTick,
          Event.resetChild]
      | _ => [Event.setStatus NodeStatus.RUNNING, Event.calculate_measure, Event.executeTick] := by
  simp only [QRNode.childStatus, QRNode.tick, Frame.call]
  generalize (eng.executeTick (measure (QRNode.setStatus NodeStatus.RUNNING q)).child_node_).1
    = s
  cases s <;> rfl

/-- The calls of `SystemLevelQR::tick`, by the status the child reports. -/
theorem system_tick_trace (eng : Engine) (measure : SystemLevelQR → SystemLevelQR)
    (sys : SystemLevelQR) :
    (SystemLevelQR.tick eng measure sys).trace =
      match SystemLevelQR.childStatus eng sys with
      | NodeStatus.SUCCESS =>
        [Event.setStatus NodeStatus.RUNNING, Event.executeTick, Event.resetChild]
      | NodeStatus.FAILURE =>
        [Event.setStatus NodeStatus.RUNNING, Event.executeTick, Event.resetChild]
      | NodeStatus.RUNNING =>
        [Event.setStatus NodeStatus.RUNNING, Event.executeTick, Event.calculate_measure]
      | _ => [Event.setStatus NodeStatus.RUNNING, Event.executeTick] := by
  simp only [SystemLevelQR.childStatus, SystemLevelQR.tick, Frame.call,
    SystemLevelQR.setStatus]
  generalize (eng.executeTick sys.child_node_).1 = s
  cases s <;> rfl

/-- The object after `QRNode::tick`, by the status the child reports. -/
theorem qrnode_tick_node (eng : Engine) (measure : QRNode → QRNode) (q : QRNode) :
    (QRNode.tick eng measure q).node =
      match QRNode.childStatus eng measure q with
      | NodeStatus.SUCCESS =>
        QRNode.resetChild eng (measure (QRNode.tickChild eng
          (measure (QRNode.setStatus NodeStatus.RUNNING q))))
      | NodeStatus.FAILURE =>
        QRNode.resetChild eng (QRNode.tickChild eng
          (measure (QRNode.setStatus NodeStatus.RUNNING q)))
      | _ => QRNode.tickChild eng (measure (QRNode.setStatus NodeStatus.RUNNING q)) := by
  simp only [QRNode.childStatus, QRNode.tick, Frame.call]
  generalize (eng.executeTick (measure (QRNode.setStatus NodeStatus.RUNNING q)).child_node_).1
    = s
  cases s <;> rfl

/-- The object after `SystemLevelQR::tick`, by the status the child reports. -/
theorem system_tick_node (eng : Engine) (measure : SystemLevelQR → SystemLevelQR)
    (sys : SystemLevelQR) :
    (SystemLevelQR.tick eng measure sys).node =
      match SystemLevelQR.childStatus eng sys with
      | NodeStatus.SUCCESS =>
        SystemLevelQR.resetChild eng (SystemLevelQR.tickChild eng
          (SystemLevelQR.setStatus NodeStatus.RUNNING sys))
      | NodeStatus.FAILURE =>
        SystemLevelQR.resetChild eng (SystemLevelQR.tickChild eng
          (SystemLevelQR.setStatus NodeStatus.RUNNING sys))
      | NodeStatus.RUNNING =>
        measure (SystemLevelQR.tickChild eng (SystemLevelQR.setStatus NodeStatus.RUNNING sys))
      | _ => SystemLevelQR.tickChild eng (SystemLevelQR.setStatus NodeStatus.RUNNING sys) := by
  simp only [SystemLevelQR.childStatus, SystemLevelQR.tick, Frame.call]
  generalize h : (eng.executeTick
    (SystemLevelQR.setStatus NodeStatus.RUNNING sys).child_node_).1 = s
  have h2 : (eng.executeTick sys.child_node_).1 = s := h
  rw [h2]
  cases s <;> rfl

/-- C1 (status transparency): whatever the measurement function, when the
wrapped child reports a status `s` other than Idle (Success, Failure, Running
or Skipped), `QRNode::tick` returns exactly `s`, and so does
`SystemLevelQR::tick`. -/
theorem tick_status_transparent (eng : Engine) (calcQ : QRNode → QRNode)
    (calcS : SystemLevelQR → SystemLevelQR) (q : QRNode) (sys : SystemLevelQR)
    (s : NodeStatus) (hs : s ≠ NodeStatus.IDLE) :
    (QRNode.childStatus eng calcQ q = s → (QRNode.tick eng calcQ q).result = Except.ok s) ∧
    (SystemLevelQR.childStatus eng sys = s →
      (SystemLevelQR.tick eng calcS sys).result = Except.ok s) := by
  constructor
  · intro h
    simp only [QRNode.childStatus] at h
    simp only [QRNode.tick, Frame.call, h]
    cases s <;> first | rfl | exact absurd rfl hs
  · intro h
    simp only [SystemLevelQR.childStatus] at h
    simp only [SystemLevelQR.tick, Frame.call, SystemLevelQR.setStatus, h]
    cases s <;> first | rfl | exact absurd rfl hs

/-- Witness of C1: a child reporting Running, under both decorators. -/
theorem tick_status_transparent_witness :
    NodeStatus.RUNNING ≠ NodeStatus.IDLE ∧
    (QRNode.tick (constEngine NodeStatus.RUNNING) (QRNode.measurement_pass (Dbl.fin 1))
      sampleQR).result = Except.ok NodeStatus.RUNNING ∧
    (SystemLevelQR.tick (constEngine NodeStatus.RUNNING) sampleSysMeasure sampleSys).result
      = Except.ok NodeStatus.RUNNING :=
  ⟨by decide,
   (tick_status_transparent (constEngine NodeStatus.RUNNING)
      (QRNode.measurement_pass (Dbl.fin 1)) sampleSysMeasure sampleQR sampleSys
      NodeStatus.RUNNING (by decide)).1 rfl,
   (tick_status_transparent (constEngine NodeStatus.RUNNING)
      (QRNode.measurement_pass (Dbl.fin 1)) sampleSysMeasure sampleQR sampleSys
      NodeStatus.RUNNING (by decide)).2 rfl⟩

/-- C6 (Idle rejection, raises-iff): `QRNode::tick` raises a `LogicError` if
and only if the wrapped child reports Idle, and so does `SystemLevelQR::tick`;
the message raised is the decorator's name between square brackets followed by
the fixed text, and for every other child status the tick returns a status. -/
theorem tick_raises_iff_child_idle (eng : Engine) (calcQ : QRNode → QRNode)
    (calcS : SystemLevelQR → SystemLevelQR) (q : QRNode) (sys : SystemLevelQR) :
    (((∃ e, (QRNode.tick eng calcQ q).result = Except.error e) ↔
        QRNode.childStatus eng calcQ q = NodeStatus.IDLE) ∧
      (∀ e, (QRNode.tick eng calcQ q).result = Except.error e →
        e.what = "[" ++ (QRNode.tick eng calcQ q).node.name ++
          "]: A child should not return IDLE") ∧
      ((∃ r, (QRNode.tick eng calcQ q).result = Except.ok r) ↔
        QRNode.childStatus eng calcQ q ≠ NodeStatus.IDLE)) ∧
    (((∃ e, (SystemLevelQR.tick eng calcS sys).result = Except.error e) ↔
        SystemLevelQR.childStatus eng sys = NodeStatus.IDLE) ∧
      (∀ e, (SystemLevelQR.tick eng calcS sys).result = Except.error e →
        e.what = "[" ++ sys.name ++ "]: A child should not return IDLE") ∧
      ((∃ r, (SystemLevelQR.tick eng calcS sys).result = Except.ok r) ↔
        SystemLevelQR.childStatus eng sys ≠ NodeStatus.IDLE)) := by
  constructor
  · simp only [QRNode.childStatus, QRNode.tick, Frame.call]
    cases (eng.executeTick (calcQ (QRNode.setStatus NodeStatus.RUNNING q)).child_node_).1 <;>
      simp
  · simp only [SystemLevelQR.childStatus, SystemLevelQR.tick, Frame.call,
      SystemLevelQR.setStatus]
    cases (eng.executeTick sys.child_node_).1 <;> simp [SystemLevelQR.tickChild]

/-- C7, as stated, fails for `QRNode::tick`: with a measurement function that
records a pass and a child that reports Idle, `_times_calculated` is 1 when
the tick raises and was 0 before the tick. -/
theorem idle_tick_changes_metric_state :
    QRNode.childStatus (constEngine NodeStatus.IDLE) (QRNode.measurement_pass (Dbl.fin 1))
      sampleQR = NodeStatus.IDLE ∧
    sampleQR._times_calculated = 0 ∧
    (QRNode.tick (constEngine NodeStatus.IDLE) (QRNode.measurement_pass (Dbl.fin 1))
      sampleQR).node._times_calculated = 1 ∧
    (QRNode.tick (constEngine NodeStatus.IDLE) (QRNode.measurement_pass (Dbl.fin 1))
      sampleQR).node._times_calculated ≠ sampleQR._times_calculated := by
  refine ⟨rfl, rfl, ?_, ?_⟩ <;>
    simp [QRNode.tick, Frame.call, constEngine, QRNode.measurement_pass, QRNode.metric_mean,
      QRNode.output_metric, QRNode.setStatus, QRNode.tickChild, sampleQR, QRNode.new,
      wrapInt32]

/-- C7, amended: when the wrapped child reports Idle, `SystemLevelQR::tick`
raises with `_metric`, `_average_metric` and `_times_calculated` as they were
before the tick, for every measurement function; `QRNode::tick` raises with
the values that its one `calculate_measure` call before the child tick left,
which are the values before the tick when that call does not change them. -/
theorem idle_tick_metric_state (eng : Engine) (calcQ : QRNode → QRNode)
    (calcS : SystemLevelQR → SystemLevelQR) (q : QRNode) (sys : SystemLevelQR)
    (hq : QRNode.childStatus eng calcQ q = NodeStatus.IDLE)
    (hsys : SystemLevelQR.childStatus eng sys = NodeStatus.IDLE) :
    ((SystemLevelQR.tick eng calcS sys).node._metric = sys._metric ∧
      (SystemLevelQR.tick eng calcS sys).node._average_metric = sys._average_metric ∧
      (SystemLevelQR.tick eng calcS sys).node._times_calculated = sys._times_calculated) ∧
    ((QRNode.tick eng calcQ q).node._metric =
        (calcQ (QRNode.setStatus NodeStatus.RUNNING q))._metric ∧
      (QRNode.tick eng calcQ q).node._average_metric =
        (calcQ (QRNode.setStatus NodeStatus.RUNNING q))._average_metric ∧
      (QRNode.tick eng calcQ q).node._times_calculated =
        (calcQ (QRNode.setStatus NodeStatus.RUNNING q))._times_calculated) := by
  simp only [QRNode.childStatus] at hq
  simp only [SystemLevelQR.childStatus] at hsys
  constructor
  · simp [SystemLevelQR.tick, Frame.call, SystemLevelQR.setStatus, hsys,
      SystemLevelQR.tickChild]
  · simp [QRNode.tick, Frame.call, hq, QRNode.tickChild]

/-- Witness of the amended C7: a child reporting Idle under both decorators,
the `QRNode` with the base `calculate_measure`. -/
theorem idle_tick_metric_state_witness :
    (QRNode.childStatus (constEngine NodeStatus.IDLE) QRNode.calculate_measure sampleQR
        = NodeStatus.IDLE ∧
      SystemLevelQR.childStatus (constEngine NodeStatus.IDLE) sampleSys = NodeStatus.IDLE) ∧
    (SystemLevelQR.tick (constEngine NodeStatus.IDLE) sampleSysMeasure
      sampleSys).node._times_calculated = sampleSys._times_calculated ∧
    (QRNode.tick (constEngine NodeStatus.IDLE) QRNode.calculate_measure
      sampleQR).node._times_calculated =
      (QRNode.calculate_measure
        (QRNode.setStatus NodeStatus.RUNNING sampleQR))._times_calculated :=
  ⟨⟨rfl, rfl⟩,
   (idle_tick_metric_state (constEngine NodeStatus.IDLE) QRNode.calculate_measure
      sampleSysMeasure sampleQR sampleSys rfl rfl).1.2.2,
   (idle_tick_metric_state (constEngine NodeStatus.IDLE) QRNode.calculate_measure
      sampleSysMeasure sampleQR sampleSys rfl rfl).2.2.2⟩

/-- C8 (base measurement timing): in `QRNode::tick` the child is ticked once;
`calculate_measure` is called exactly once before the child tick whatever the
child reports, and after the child tick once when the child reports Success
and not at all otherwise, so that the total is one call for Failure, Running
and Skipped.  The calls act on the object: the child is ticked on the object
the first call leaves, and the object the tick leaves is, on Success, what the
second call makes of the object after the child tick (with the child reset),
and otherwise the object after the child tick with no further call (with the
child reset on Failure). -/
theorem qrnode_tick_measure_calls (eng : Engine) (measure : QRNode → QRNode) (q : QRNode) :
    let measured := measure { q with status := NodeStatus.RUNNING }
    let ticked : QRNode :=
      { measured with child_node_ := (eng.executeTick measured.child_node_).2 }
    ((QRNode.tick eng measure q).trace.count Event.executeTick = 1 ∧
      ((QRNode.tick eng measure q).trace.takeWhile (fun e => e != Event.executeTick)).count
        Event.calculate_measure = 1 ∧
      ((QRNode.tick eng measure q).trace.dropWhile (fun e => e != Event.executeTick)).count
        Event.calculate_measure =
        (if QRNode.childStatus eng measure q = NodeStatus.SUCCESS then 1 else 0) ∧
      (QRNode.tick eng measure q).trace.count Event.calculate_measure =
        (if QRNode.childStatus eng measure q = NodeStatus.SUCCESS then 2 else 1)) ∧
    QRNode.childStatus eng measure q = (eng.executeTick measured.child_node_).1 ∧
    (QRNode.tick eng measure q).node =
      (match (eng.executeTick measured.child_node_).1 with
      | NodeStatus.SUCCESS =>
        { measure ticked with child_node_ := eng.resetChild (measure ticked).child_node_ }
      | NodeStatus.FAILURE =>
        { ticked with child_node_ := eng.resetChild ticked.child_node_ }
      | _ => ticked) := by
  intro measured ticked
  have htrace :
      (QRNode.tick eng measure q).trace =
        match QRNode.childStatus eng measure q with
        | NodeStatus.SUCCESS =>
          [Event.setStatus NodeStatus.RUNNING, Event.calculate_measure, Event.executeTick,
            Event.calculate_measure, Event.resetChild]
        | NodeStatus.FAILURE =>
          [Event.setStatus NodeStatus.RUNNING, Event.calculate_measure, Event.executeTick,
            Event.resetChild]
        | _ => [Event.setStatus NodeStatus.RUNNING, Event.calculate_measure, Event.executeTick] := by
    simp only [QRNode.childStatus, QRNode.tick, Frame.call]
    generalize (eng.executeTick (measure (QRNode.setStatus NodeStatus.RUNNING q)).child_node_).1
      = s
    cases s <;> rfl
  have hnode :
      (QRNode.tick eng measure q).node =
        match QRNode.childStatus eng measure q with
        | NodeStatus.SUCCESS =>
          QRNode.resetChild eng (measure (QRNode.tickChild eng
            (measure (QRNode.setStatus NodeStatus.RUNNING q))))
        | NodeStatus.FAILURE =>
          QRNode.resetChild eng (QRNode.tickChild eng
            (measure (QRNode.setStatus NodeStatus.RUNNING q)))
        | _ => QRNode.tickChild eng (measure (QRNode.setStatus NodeStatus.RUNNING q)) := by
    simp only [QRNode.childStatus, QRNode.tick, Frame.call]
    generalize (eng.executeTick (measure (QRNode.setStatus NodeStatus.RUNNING q)).child_node_).1
      = s
    cases s <;> rfl
  refine ⟨?_, rfl, ?_⟩
  · rw [htrace]
    generalize QRNode.childStatus eng measure q = s
    cases s <;> decide
  · rw [hnode]
    have hs : QRNode.childStatus eng measure q = (eng.executeTick measured.child_node_).1 :=
      rfl
    rw [hs]
    generalize (eng.executeTick measured.child_node_).1 = s
    cases s <;> rfl

/-- C9 (inverted timing): in `SystemLevelQR::tick` the child is ticked once;
`calculate_measure` is never called before the child tick, and after the child
tick it is called exactly once when the child reports Running and not at all
when the child reports Success, Failure or Skipped.  The calls act on the
object: the child is ticked on the object as `setStatus` leaves it, and the
object the tick leaves is, on Running, what the one call makes of the object
after the child tick, and otherwise the object after the child tick with no
call (with the child reset on Success and Failure). -/
theorem system_tick_measure_calls (eng : Engine) (measure : SystemLevelQR → SystemLevelQR)
    (sys : SystemLevelQR) :
    let ticked : SystemLevelQR :=
      { sys with
        status := NodeStatus.RUNNING
        child_node_ := (eng.executeTick sys.child_node_).2 }
    ((SystemLevelQR.tick eng measure sys).trace.count Event.executeTick = 1 ∧
      ((SystemLevelQR.tick eng measure sys).trace.takeWhile
        (fun e => e != Event.executeTick)).count Event.calculate_measure = 0 ∧
      ((SystemLevelQR.tick eng measure sys).trace.dropWhile
        (fun e => e != Event.executeTick)).count Event.calculate_measure =
        (if SystemLevelQR.childStatus eng sys = NodeStatus.RUNNING then 1 else 0) ∧
      (SystemLevelQR.tick eng measure sys).trace.count Event.calculate_measure =
        (if SystemLevelQR.childStatus eng sys = NodeStatus.RUNNING then 1 else 0)) ∧
    SystemLevelQR.childStatus eng sys = (eng.executeTick sys.child_node_).1 ∧
    (SystemLevelQR.tick eng measure sys).node =
      (match (eng.executeTick sys.child_node_).1 with
      | NodeStatus.SUCCESS =>
        { ticked with child_node_ := eng.resetChild ticked.child_node_ }
      | NodeStatus.FAILURE =>
        { ticked with child_node_ := eng.resetChild ticked.child_node_ }
      | NodeStatus.RUNNING => measure ticked
      | _ => ticked) := by
  intro ticked
  have htrace :
      (SystemLevelQR.tick eng measure sys).trace =
        match SystemLevelQR.childStatus eng sys with
        | NodeStatus.SUCCESS =>
          [Event.setStatus NodeStatus.RUNNING, Event.executeTick, Event.resetChild]
        | NodeStatus.FAILURE =>
          [Event.setStatus NodeStatus.RUNNING, Event.executeTick, Event.resetChild]
        | NodeStatus.RUNNING =>
          [Event.setStatus NodeStatus.RUNNING, Event.executeTick, Event.calculate_measure]
        | _ => [Event.setStatus NodeStatus.RUNNING, Event.executeTick] := by
    simp only [SystemLevelQR.childStatus, SystemLevelQR.tick, Frame.call,
      SystemLevelQR.setStatus]
    generalize (eng.executeTick sys.child_node_).1 = s
    cases s <;> rfl
  have hnode :
      (SystemLevelQR.tick eng measure sys).node =
        match SystemLevelQR.childStatus eng sys with
        | NodeStatus.SUCCESS =>
          SystemLevelQR.resetChild eng (SystemLevelQR.tickChild eng
            (SystemLevelQR.setStatus NodeStatus.RUNNING sys))
        | NodeStatus.FAILURE =>
          SystemLevelQR.resetChild eng (SystemLevelQR.tickChild eng
            (SystemLevelQR.setStatus NodeStatus.RUNNING sys))
        | NodeStatus.RUNNING =>
          measure (SystemLevelQR.tickChild eng (SystemLevelQR.setStatus NodeStatus.RUNNING sys))
        | _ => SystemLevelQR.tickChild eng (SystemLevelQR.setStatus NodeStatus.RUNNING sys) := by
    simp only [SystemLevelQR.childStatus, SystemLevelQR.tick, Frame.call]
    generalize h : (eng.executeTick
      (SystemLevelQR.setStatus NodeStatus.RUNNING sys).child_node_).1 = s
    have h2 : (eng.executeTick sys.child_node_).1 = s := h
    rw [h2]
    cases s <;> rfl
  refine ⟨?_, rfl, ?_⟩
  · rw [htrace]
    generalize SystemLevelQR.childStatus eng sys = s
    cases s <;> decide
  · rw [hnode]
    have hs : SystemLevelQR.childStatus eng sys = (eng.executeTick sys.child_node_).1 := rfl
    rw [hs]
    generalize (eng.executeTick sys.child_node_).1 = s
    cases s <;> rfl

/-! ## Running mean -/

/-- A value in the range of a 32-bit `int` is not changed by the wrap. -/
theorem wrapInt32_of_range (x : Int) (h0 : -2147483648 ≤ x) (h1 : x < 2147483648) :
    wrapInt32 x = x := by
  unfold wrapInt32
  omega

/-- Rounding leaves zero as it is. -/
theorem Dbl.round_zero : Dbl.round 0 = Dbl.fin 0 := by decide!

/-- A representable rational is left as it is by rounding. -/
theorem Dbl.round_of_representable (q : ℚ) (h : Dbl.representable q = true) :
    Dbl.round q = Dbl.fin q := by
  simpa [Dbl.representable] using h

/-- The difference of two finite values is the rounded exact difference. -/
theorem Dbl.sub_fin (a b : ℚ) : Dbl.sub (Dbl.fin a) (Dbl.fin b) = Dbl.round (a - b) := by
  simp [Dbl.sub, Dbl.neg, Dbl.add, sub_eq_add_neg]

/-- C10, as stated, fails: on a node with `_times_calculated = 0`, mean 0 and
metric 1, `metric_mean` divides by `(double)0` and leaves `_average_metric`
at `+inf`, not at the metric. -/
theorem metric_mean_zero_count :
    sampleMeasured._times_calculated = 0 ∧
    Dbl.ofInt sampleMeasured._times_calculated = Dbl.fin 0 ∧
    (QRNode.metric_mean sampleMeasured)._average_metric = Dbl.pinf ∧
    (QRNode.metric_mean sampleMeasured)._average_metric ≠ sampleMeasured._metric := by
  decide!

/-- C10, amended: `metric_mean` has no guard of its own; on the first pass of
a freshly constructed node, where the mean is 0.0 and `output_metric` has
raised the count from 0 to 1 before `metric_mean` runs, it leaves
`_average_metric = _metric`, whatever double the metric is. -/
theorem metric_mean_first_pass (st : QRNode) (hm : st._metric.isDouble = true)
    (ha : st._average_metric = Dbl.fin 0) :
    (st._times_calculated = 1 → (QRNode.metric_mean st)._average_metric = st._metric) ∧
    (st._times_calculated = 0 →
      (QRNode.output_metric st)._times_calculated = 1 ∧
      (QRNode.metric_mean (QRNode.output_metric st))._average_metric = st._metric) := by
  have key : ∀ d : Dbl, d.isDouble = true →
      Dbl.add (Dbl.fin 0) (Dbl.div (Dbl.sub d (Dbl.fin 0)) (Dbl.ofInt 1)) = d := by
    intro d hd
    cases d with
    | fin m =>
      have hr : Dbl.round m = Dbl.fin m := Dbl.round_of_representable m hd
      simp [Dbl.sub_fin, Dbl.ofInt, Dbl.div, Dbl.add, hr]
    | pinf => simp [Dbl.sub, Dbl.neg, Dbl.add, Dbl.div, Dbl.ofInt]
    | ninf => simp [Dbl.sub, Dbl.neg, Dbl.add, Dbl.div, Dbl.ofInt]
    | nan => simp [Dbl.sub, Dbl.neg, Dbl.add, Dbl.div, Dbl.ofInt]
  constructor
  · intro h
    simp only [QRNode.metric_mean, h, ha]
    exact key _ hm
  · intro h
    have hw : wrapInt32 1 = 1 := by decide
    refine ⟨by simp [QRNode.output_metric, h, hw], ?_⟩
    simp only [QRNode.metric_mean, QRNode.output_metric, h, ha, zero_add, hw]
    exact key _ hm

/-- Witness of the amended C10: the first pass of a fresh node with metric 1. -/
theorem metric_mean_first_pass_witness :
    (sampleMeasured._metric.isDouble = true ∧ sampleMeasured._average_metric = Dbl.fin 0 ∧
      sampleMeasured._times_calculated = 0) ∧
    (QRNode.output_metric sampleMeasured)._times_calculated = 1 ∧
    (QRNode.metric_mean (QRNode.output_metric sampleMeasured))._average_metric
      = sampleMeasured._metric :=
  ⟨⟨by decide!, rfl, rfl⟩, (metric_mean_first_pass sampleMeasured (by decide!) rfl).2 rfl⟩

/-! ## Aggregation -/

mutual
/-- The recursive visitor folds the callback over the nodes of the subtree. -/
theorem applyRecursiveVisitor_eq_foldl {σ : Type} (visitor : TreeNode → σ → σ) :
    ∀ (t : TreeNode) (s : σ),
      applyRecursiveVisitor visitor t s = t.nodes.foldl (fun acc n => visitor n acc) s
  | TreeNode.leaf n, s => by simp [applyRecursiveVisitor, TreeNode.nodes]
  | TreeNode.control n cs, s => by
    simp [applyRecursiveVisitor, TreeNode.nodes, applyRecursiveVisitorList_eq_foldl visitor cs]
  | TreeNode.decorator n c, s => by
    simp [applyRecursiveVisitor, TreeNode.nodes, applyRecursiveVisitor_eq_foldl visitor c]
  | TreeNode.taskLevelQR n qa m c, s => by
    simp [applyRecursiveVisitor, TreeNode.nodes, applyRecursiveVisitor_eq_foldl visitor c]
  | TreeNode.systemLevelQR n qa m c, s => by
    simp [applyRecursiveVisitor, TreeNode.nodes, applyRecursiveVisitor_eq_foldl visitor c]
/-- The loop over siblings folds the callback over the nodes of their subtrees. -/
theorem applyRecursiveVisitorList_eq_foldl {σ : Type} (visitor : TreeNode → σ → σ) :
    ∀ (cs : List TreeNode) (s : σ),
      applyRecursiveVisitorList visitor cs s
        = (TreeNode.nodesOfList cs).foldl (fun acc n => visitor n acc) s
  | [], s => by simp [applyRecursiveVisitorList, TreeNode.nodesOfList]
  | c :: cs, s => by
    simp [applyRecursiveVisitorList, TreeNode.nodesOfList, List.foldl_append,
      applyRecursiveVisitor_eq_foldl visitor c, applyRecursiveVisitorList_eq_foldl visitor cs]
end

/-- A matching node is a `TaskLevelQR` with the attribute. -/
theorem SystemLevelQR.isMatchingTask_iff (qa : QualityAttribute) (n : TreeNode) :
    SystemLevelQR.isMatchingTask qa n = true ↔
      ∃ nm v c, n = TreeNode.taskLevelQR nm qa v c := by
  cases n <;> simp [SystemLevelQR.isMatchingTask]
  rename_i nm qa2 v c
  constructor
  · intro h; exact h.symm
  · intro h; exact h.symm

/-- The visitor on one node, read at a key. -/
theorem SystemLevelQR.node_visitor_apply (qa : QualityAttribute) (n : TreeNode)
    (m : MetricMap) (k : String) :
    SystemLevelQR.node_visitor qa n m k =
      match n with
      | TreeNode.taskLevelQR nm qa2 v _ => if qa = qa2 ∧ k = nm then some v else m k
      | _ => m k := by
  cases n <;> simp [SystemLevelQR.node_visitor]
  rename_i nm qa2 v c
  by_cases h : qa = qa2 <;> simp [h, MetricMap.assign]

/-- The visitor leaves a key alone on a node that does not match or has
another name. -/
theorem SystemLevelQR.node_visitor_frame (qa : QualityAttribute) (n : TreeNode)
    (m : MetricMap) (k : String)
    (h : SystemLevelQR.isMatchingTask qa n = true → n.registrationName ≠ k) :
    SystemLevelQR.node_visitor qa n m k = m k := by
  rw [SystemLevelQR.node_visitor_apply]
  cases n <;> simp
  rename_i nm qa2 v c
  intro h1 h2
  simp [SystemLevelQR.isMatchingTask, TreeNode.registrationName, h1] at h
  exact absurd h2.symm h

/-- A key no matching node of the list has keeps its entry through the fold. -/
theorem SystemLevelQR.fold_frame (qa : QualityAttribute) (k : String) :
    ∀ (l : List TreeNode) (m : MetricMap),
      (∀ n ∈ l, SystemLevelQR.isMatchingTask qa n = true → n.registrationName ≠ k) →
      l.foldl (fun acc n => SystemLevelQR.node_visitor qa n acc) m k = m k
  | [], m, _ => rfl
  | x :: xs, m, h => by
    rw [List.foldl_cons, SystemLevelQR.fold_frame qa k xs _
      (fun n hn => h n (List.mem_cons_of_mem _ hn)),
      SystemLevelQR.node_visitor_frame qa x m k (h x (List.mem_cons_self _ _))]

/-- The keys after the fold: those before it and the names of the matching
nodes of the list. -/
theorem SystemLevelQR.fold_keys (qa : QualityAttribute) (k : String) :
    ∀ (l : List TreeNode) (m : MetricMap),
      (l.foldl (fun acc n => SystemLevelQR.node_visitor qa n acc) m k).isSome = true ↔
        ((m k).isSome = true ∨
          ∃ n ∈ l, SystemLevelQR.isMatchingTask qa n = true ∧ n.registrationName = k)
  | [], m => by simp
  | x :: xs, m => by
    rw [List.foldl_cons, SystemLevelQR.fold_keys qa k xs]
    have hx : (SystemLevelQR.node_visitor qa x m k).isSome = true ↔
        ((m k).isSome = true ∨
          (SystemLevelQR.isMatchingTask qa x = true ∧ x.registrationName = k)) := by
      rw [SystemLevelQR.node_visitor_apply]
      cases x <;> simp [SystemLevelQR.isMatchingTask, TreeNode.registrationName]
      rename_i nm qa2 v c
      by_cases h : qa = qa2 ∧ k = nm
      · simp [h]
      · simp only [h, if_false]
        constructor
        · intro h1; exact Or.inl h1
        · rintro (h1 | ⟨h1, h2⟩)
          · exact h1
          · exact absurd ⟨h1, h2.symm⟩ h
    rw [hx]
    simp only [List.mem_cons, exists_eq_or_imp]
    tauto

/-- With distinct names among the matching nodes of the list, the fold leaves
at the name of each of them its metric. -/
theorem SystemLevelQR.fold_value (qa : QualityAttribute) :
    ∀ (l : List TreeNode) (m : MetricMap),
      ((l.filter (SystemLevelQR.isMatchingTask qa)).map TreeNode.registrationName).Nodup →
      ∀ nm v c, TreeNode.taskLevelQR nm qa v c ∈ l →
        l.foldl (fun acc n => SystemLevelQR.node_visitor qa n acc) m nm = some v
  | [], _, _, nm, v, c, h => by simp at h
  | x :: xs, m, hnd, nm, v, c, h => by
    rw [List.foldl_cons]
    have htail : ((xs.filter (SystemLevelQR.isMatchingTask qa)).map
        TreeNode.registrationName).Nodup := by
      by_cases hx : SystemLevelQR.isMatchingTask qa x = true
      · rw [List.filter_cons_of_pos hx, List.map_cons, List.nodup_cons] at hnd
        exact hnd.2
      · rw [List.filter_cons_of_neg hx] at hnd
        exact hnd
    rcases List.mem_cons.1 h with hx | hx
    · subst hx
      have hm : SystemLevelQR.isMatchingTask qa (TreeNode.taskLevelQR nm qa v c) = true := by
        simp [SystemLevelQR.isMatchingTask]
      rw [List.filter_cons_of_pos hm, List.map_cons, List.nodup_cons] at hnd
      rw [SystemLevelQR.fold_frame qa nm xs]
      · simp [SystemLevelQR.node_visitor_apply]
      · intro n hn hmatch heq
        apply hnd.1
        simp only [TreeNode.registrationName]
        exact List.mem_map.2 ⟨n, List.mem_filter.2 ⟨hn, hmatch⟩, heq⟩
    · exact SystemLevelQR.fold_value qa xs _ htail nm v c hx

/-- The map after `gather_child_metrics`, as a fold over the nodes of the subtree. -/
theorem SystemLevelQR.gather_eq_foldl (sys : SystemLevelQR) :
    sys.gather_child_metrics._sub_qr_metrics =
      sys.child_node_.nodes.foldl
        (fun acc n => SystemLevelQR.node_visitor sys._quality_attribute n acc)
        sys._sub_qr_metrics := by
  simp [SystemLevelQR.gather_child_metrics, applyRecursiveVisitor_eq_foldl]

/-- C3 (aggregation correctness): when the matching nodes of the subtree have
pairwise distinct registered names, `gather_child_metrics` on an empty
`_sub_qr_metrics` gives a map whose keys are exactly the registered names of
the nodes of the subtree, at any depth, that are `TaskLevelQR` with the
attribute of the `SystemLevelQR`, and a key `k` has the value `v` exactly when
such a node registered as `k` has the metric `v`. -/
theorem gather_child_metrics_correct (sys : SystemLevelQR)
    (hempty : sys._sub_qr_metrics = MetricMap.empty)
    (hnd : ((sys.child_node_.nodes.filter
      (SystemLevelQR.isMatchingTask sys._quality_attribute)).map
        TreeNode.registrationName).Nodup) :
    (∀ k, sys.gather_child_metrics._sub_qr_metrics.contains k = true ↔
      ∃ n ∈ sys.child_node_.nodes,
        SystemLevelQR.isMatchingTask sys._quality_attribute n = true ∧
          n.registrationName = k) ∧
    (∀ k v, sys.gather_child_metrics._sub_qr_metrics k = some v ↔
      ∃ c, TreeNode.taskLevelQR k sys._quality_attribute v c ∈ sys.child_node_.nodes) := by
  have hkeys : ∀ k, sys.gather_child_metrics._sub_qr_metrics.contains k = true ↔
      ∃ n ∈ sys.child_node_.nodes,
        SystemLevelQR.isMatchingTask sys._quality_attribute n = true ∧
          n.registrationName = k := by
    intro k
    rw [MetricMap.contains, SystemLevelQR.gather_eq_foldl, SystemLevelQR.fold_keys, hempty]
    simp [MetricMap.empty]
  refine ⟨hkeys, ?_⟩
  intro k v
  constructor
  · intro h
    have hc : sys.gather_child_metrics._sub_qr_metrics.contains k = true := by
      simp [MetricMap.contains, h]
    obtain ⟨n, hn, hmatch, hname⟩ := (hkeys k).1 hc
    obtain ⟨nm, v2, c, rfl⟩ := (SystemLevelQR.isMatchingTask_iff _ n).1 hmatch
    simp only [TreeNode.registrationName] at hname
    subst hname
    have hv := SystemLevelQR.fold_value sys._quality_attribute sys.child_node_.nodes
      sys._sub_qr_metrics hnd nm v2 c hn
    rw [← SystemLevelQR.gather_eq_foldl, h] at hv
    cases hv
    exact ⟨c, hn⟩
  · rintro ⟨c, hc⟩
    rw [SystemLevelQR.gather_eq_foldl]
    exact SystemLevelQR.fold_value sys._quality_attribute sys.child_node_.nodes
      sys._sub_qr_metrics hnd k v c hc

/-- Witness of C3: on `nestedTree` the pass records "t1" and "t3", found
below a sequence and below a fallback, a `SystemLevelQR` and another
decorator, with their metrics. -/
theorem gather_child_metrics_correct_witness :
    (nestedSys._sub_qr_metrics = MetricMap.empty ∧
      ((nestedSys.child_node_.nodes.filter
        (SystemLevelQR.isMatchingTask nestedSys._quality_attribute)).map
          TreeNode.registrationName).Nodup) ∧
    (∀ k v, nestedSys.gather_child_metrics._sub_qr_metrics k = some v ↔
      ∃ c, TreeNode.taskLevelQR k nestedSys._quality_attribute v c
        ∈ nestedSys.child_node_.nodes) :=
  ⟨⟨rfl, by decide⟩, (gather_child_metrics_correct nestedSys rfl (by decide)).2⟩

/-- C4, as stated, fails: after a pass that recorded the matching node "old",
and the removal of that node from the subtree, the next pass leaves the entry
of "old" in `_sub_qr_metrics`, though no node of the subtree matches. -/
theorem gather_keeps_stale_entry :
    staleSys.gather_child_metrics._sub_qr_metrics "old" = some (Dbl.fin 1) ∧
    (∀ n ∈ staleSysNext.child_node_.nodes,
      SystemLevelQR.isMatchingTask staleSysNext._quality_attribute n = false) ∧
    staleSysNext.gather_child_metrics._sub_qr_metrics "old" = some (Dbl.fin 1) ∧
    staleSysNext.gather_child_metrics._sub_qr_metrics.contains "old" = true := by
  refine ⟨?_, ?_, ?_, ?_⟩
  · simp [staleSys, SystemLevelQR.new, QRNode.new, SystemLevelQR.gather_child_metrics,
      applyRecursiveVisitor, applyRecursiveVisitorList, SystemLevelQR.node_visitor,
      MetricMap.assign]
  · decide
  · simp [staleSysNext, staleSys, SystemLevelQR.new, QRNode.new,
      SystemLevelQR.gather_child_metrics, applyRecursiveVisitor, applyRecursiveVisitorList,
      SystemLevelQR.node_visitor, MetricMap.assign]
  · simp [MetricMap.contains, staleSysNext, staleSys, SystemLevelQR.new, QRNode.new,
      SystemLevelQR.gather_child_metrics, applyRecursiveVisitor, applyRecursiveVisitorList,
      SystemLevelQR.node_visitor, MetricMap.assign]

/-- C4, amended: for every prior content of `_sub_qr_metrics` and every
subtree, the keys after `gather_child_metrics` are the keys the map had before
the call and the registered names of the matching `TaskLevelQR` nodes of the
subtree, and no other key. -/
theorem gather_child_metrics_keys (sys : SystemLevelQR) (k : String) :
    sys.gather_child_metrics._sub_qr_metrics.contains k = true ↔
      (sys._sub_qr_metrics.contains k = true ∨
        ∃ n ∈ sys.child_node_.nodes,
          SystemLevelQR.isMatchingTask sys._quality_attribute n = true ∧
            n.registrationName = k) := by
  rw [MetricMap.contains, SystemLevelQR.gather_eq_foldl, SystemLevelQR.fold_keys]
  rfl

/-- C5 (end-to-end, latest value): a fresh `SystemLevelQR` for Power over a
sequence of a `TaskLevelQR` for Power registered as "task1" and a `TaskLevelQR`
for Safety under another name has, after a first pass in which the metric of
"task1" is `v1`, the map with the one entry "task1" ↦ `v1`, and after a second
pass in which it is `v2`, the map with the one entry "task1" ↦ `v2`; the name
of the Safety node is a key of neither.  In general a pass overwrites the
entry of a matching node with the metric the node has, whatever the map held. -/
theorem gather_latest_value (name : String) (weight_port : Option Int)
    (uninit_metric : Dbl) (uninit_weight : Int) (uninit_flag : Bool)
    (v1 v2 w1 w2 : Dbl) (safetyName : String) (hname : safetyName ≠ "task1") :
    (SystemLevelQR.new name (scenarioTree v1 safetyName w1) weight_port
        QualityAttribute.Power uninit_metric uninit_weight
        uninit_flag).gather_child_metrics._sub_qr_metrics
      = MetricMap.empty.assign "task1" v1 ∧
    (SystemLevelQR.gather_child_metrics
        { (SystemLevelQR.new name (scenarioTree v1 safetyName w1) weight_port
            QualityAttribute.Power uninit_metric uninit_weight
            uninit_flag).gather_child_metrics with
          child_node_ := scenarioTree v2 safetyName w2 })._sub_qr_metrics
      = MetricMap.empty.assign "task1" v2 ∧
    (SystemLevelQR.new name (scenarioTree v1 safetyName w1) weight_port
        QualityAttribute.Power uninit_metric uninit_weight
        uninit_flag).gather_child_metrics._sub_qr_metrics.contains safetyName = false ∧
    (SystemLevelQR.gather_child_metrics
        { (SystemLevelQR.new name (scenarioTree v1 safetyName w1) weight_port
            QualityAttribute.Power uninit_metric uninit_weight
            uninit_flag).gather_child_metrics with
          child_node_ := scenarioTree v2 safetyName w2 })._sub_qr_metrics.contains
        safetyName = false ∧
    (∀ (sys : SystemLevelQR) (nm : String) (v : Dbl) (c : TreeNode),
      ((sys.child_node_.nodes.filter
        (SystemLevelQR.isMatchingTask sys._quality_attribute)).map
          TreeNode.registrationName).Nodup →
      TreeNode.taskLevelQR nm sys._quality_attribute v c ∈ sys.child_node_.nodes →
      sys.gather_child_metrics._sub_qr_metrics nm = some v) := by
  have e1 : (SystemLevelQR.new name (scenarioTree v1 safetyName w1) weight_port
        QualityAttribute.Power uninit_metric uninit_weight
        uninit_flag).gather_child_metrics._sub_qr_metrics
      = MetricMap.empty.assign "task1" v1 := by
    funext k
    simp [SystemLevelQR.new, QRNode.new, scenarioTree, SystemLevelQR.gather_child_metrics,
      applyRecursiveVisitor, applyRecursiveVisitorList, SystemLevelQR.node_visitor]
  have e2 : (SystemLevelQR.gather_child_metrics
        { (SystemLevelQR.new name (scenarioTree v1 safetyName w1) weight_port
            QualityAttribute.Power uninit_metric uninit_weight
            uninit_flag).gather_child_metrics with
          child_node_ := scenarioTree v2 safetyName w2 })._sub_qr_metrics
      = MetricMap.empty.assign "task1" v2 := by
    funext k
    by_cases hk : k = "task1" <;>
      simp [SystemLevelQR.new, QRNode.new, scenarioTree, SystemLevelQR.gather_child_metrics,
        applyRecursiveVisitor, applyRecursiveVisitorList, SystemLevelQR.node_visitor,
        MetricMap.assign, hk]
  refine ⟨e1, e2, ?_, ?_, ?_⟩
  · rw [e1]; simp [MetricMap.contains, MetricMap.assign, MetricMap.empty, hname]
  · rw [e2]; simp [MetricMap.contains, MetricMap.assign, MetricMap.empty, hname]
  · intro sys nm v c hnd hmem
    rw [SystemLevelQR.gather_eq_foldl]
    exact SystemLevelQR.fold_value _ _ _ hnd nm v c hmem

/-- Witness of C5: the metric of "task1" is 0.8 in the first pass and 0.6 in
the second, and the Safety node is registered as "task2". -/
theorem gather_latest_value_witness :
    "task2" ≠ "task1" ∧
    (SystemLevelQR.new "sys" (scenarioTree (Dbl.round 0.8) "task2" (Dbl.round 0.5)) (some 1)
        QualityAttribute.Power (Dbl.fin 0) 0 false).gather_child_metrics._sub_qr_metrics
      = MetricMap.empty.assign "task1" (Dbl.round 0.8) ∧
    (SystemLevelQR.gather_child_metrics
        { (SystemLevelQR.new "sys" (scenarioTree (Dbl.round 0.8) "task2" (Dbl.round 0.5)) (some 1)
            QualityAttribute.Power (Dbl.fin 0) 0 false).gather_child_metrics with
          child_node_ := scenarioTree (Dbl.round 0.6) "task2" (Dbl.round 0.4) })._sub_qr_metrics
      = MetricMap.empty.assign "task1" (Dbl.round 0.6) :=
  ⟨by decide,
   (gather_latest_value "sys" (some 1) (Dbl.fin 0) 0 false (Dbl.round 0.8) (Dbl.round 0.6)
      (Dbl.round 0.5) (Dbl.round 0.4) "task2" (by decide)).1,
   (gather_latest_value "sys" (some 1) (Dbl.fin 0) 0 false (Dbl.round 0.8) (Dbl.round 0.6)
      (Dbl.round 0.5) (Dbl.round 0.4) "task2" (by decide)).2.1⟩

/-! ## Weight input, child reset and counters -/

/-- C11, as stated, fails: with nothing bound to the `weight` port the base
`calculate_measure` completes and leaves the object as it was, `weight_` at
its stale value 7, and `QRNode::tick` returns the status of the child. -/
theorem missing_weight_no_error :
    unboundQR.weight_port = none ∧
    QRNode.calculate_measure unboundQR = unboundQR ∧
    (QRNode.calculate_measure unboundQR).weight_ = 7 ∧
    (QRNode.tick (constEngine NodeStatus.RUNNING) QRNode.calculate_measure unboundQR).result
      = Except.ok NodeStatus.RUNNING ∧
    (QRNode.tick (constEngine NodeStatus.SUCCESS) QRNode.calculate_measure unboundQR).result
      = Except.ok NodeStatus.SUCCESS :=
  ⟨rfl, rfl, rfl, rfl, rfl⟩

/-- C11, amended: with nothing bound to the `weight` port, the base
`calculate_measure` does not look at the result of `getInput`: it completes
with `weight_` and every other field as before, and `QRNode::tick` with it
returns the status of the child whenever that status is not Idle, the
object keeping its `weight_`. -/
theorem missing_weight_completes (eng : Engine) (q : QRNode) (h : q.weight_port = none) :
    QRNode.calculate_measure q = q ∧
    (QRNode.tick eng QRNode.calculate_measure q).node.weight_ = q.weight_ ∧
    (QRNode.childStatus eng QRNode.calculate_measure q ≠ NodeStatus.IDLE →
      (QRNode.tick eng QRNode.calculate_measure q).result
        = Except.ok (QRNode.childStatus eng QRNode.calculate_measure q)) := by
  have hc : ∀ st : QRNode, st.weight_port = none → QRNode.calculate_measure st = st := by
    intro st hst
    simp [QRNode.calculate_measure, hst]
  refine ⟨hc q h, ?_, ?_⟩
  · rw [qrnode_tick_node]
    have h1 : QRNode.calculate_measure (QRNode.setStatus NodeStatus.RUNNING q)
        = QRNode.setStatus NodeStatus.RUNNING q := hc _ h
    have h2 : QRNode.calculate_measure (QRNode.tickChild eng
        (QRNode.setStatus NodeStatus.RUNNING q))
        = QRNode.tickChild eng (QRNode.setStatus NodeStatus.RUNNING q) := hc _ h
    generalize QRNode.childStatus eng QRNode.calculate_measure q = s
    cases s <;> simp only [h1, h2] <;> rfl
  · intro hs
    simp only [QRNode.childStatus] at hs ⊢
    simp only [QRNode.tick, Frame.call]
    generalize (eng.executeTick (QRNode.calculate_measure
      (QRNode.setStatus NodeStatus.RUNNING q)).child_node_).1 = s at hs ⊢
    cases s <;> first | rfl | exact absurd rfl hs

/-- Witness of the amended C11: the unbound node under a child that reports
Running. -/
theorem missing_weight_completes_witness :
    unboundQR.weight_port = none ∧
    QRNode.calculate_measure unboundQR = unboundQR ∧
    (QRNode.tick (constEngine NodeStatus.RUNNING) QRNode.calculate_measure
      unboundQR).node.weight_ = unboundQR.weight_ :=
  ⟨rfl, (missing_weight_completes (constEngine NodeStatus.RUNNING) unboundQR rfl).1,
   (missing_weight_completes (constEngine NodeStatus.RUNNING) unboundQR rfl).2.1⟩

/-- C12 (child reset): `QRNode::tick` and `SystemLevelQR::tick` call
`resetChild` exactly once when the child reports Success or Failure and not at
all when it reports Running or Skipped (nor when it reports Idle); the reset
is never made before the child tick.  The call acts on the child: on Success
and Failure the subtree the tick leaves is the engine's reset applied once to
the subtree after the child tick (in `QRNode::tick` on Success, after the
second measurement), and on the other statuses it is the subtree after the
child tick (in `SystemLevelQR::tick` on Running, after the measurement), to
which no reset is applied. -/
theorem tick_resets_child (eng : Engine) (measureQ : QRNode → QRNode)
    (measureS : SystemLevelQR → SystemLevelQR) (q : QRNode) (sys : SystemLevelQR) :
    let measured := measureQ { q with status := NodeStatus.RUNNING }
    let tickedQ : QRNode :=
      { measured with child_node_ := (eng.executeTick measured.child_node_).2 }
    let tickedS : SystemLevelQR :=
      { sys with
        status := NodeStatus.RUNNING
        child_node_ := (eng.executeTick sys.child_node_).2 }
    (((QRNode.tick eng measureQ q).trace.count Event.resetChild =
          (if QRNode.childStatus eng measureQ q = NodeStatus.SUCCESS ∨
              QRNode.childStatus eng measureQ q = NodeStatus.FAILURE then 1 else 0) ∧
        ((QRNode.tick eng measureQ q).trace.takeWhile
          (fun e => e != Event.executeTick)).count Event.resetChild = 0) ∧
      ((SystemLevelQR.tick eng measureS sys).trace.count Event.resetChild =
          (if SystemLevelQR.childStatus eng sys = NodeStatus.SUCCESS ∨
              SystemLevelQR.childStatus eng sys = NodeStatus.FAILURE then 1 else 0) ∧
        ((SystemLevelQR.tick eng measureS sys).trace.takeWhile
          (fun e => e != Event.executeTick)).count Event.resetChild = 0)) ∧
    (QRNode.childStatus eng measureQ q = (eng.executeTick measured.child_node_).1 ∧
      (QRNode.tick eng measureQ q).node.child_node_ =
        (match (eng.executeTick measured.child_node_).1 with
        | NodeStatus.SUCCESS => eng.resetChild (measureQ tickedQ).child_node_
        | NodeStatus.FAILURE => eng.resetChild (eng.executeTick measured.child_node_).2
        | _ => (eng.executeTick measured.child_node_).2)) ∧
    (SystemLevelQR.childStatus eng sys = (eng.executeTick sys.child_node_).1 ∧
      (SystemLevelQR.tick eng measureS sys).node.child_node_ =
        (match (eng.executeTick sys.child_node_).1 with
        | NodeStatus.SUCCESS => eng.resetChild (eng.executeTick sys.child_node_).2
        | NodeStatus.FAILURE => eng.resetChild (eng.executeTick sys.child_node_).2
        | NodeStatus.RUNNING => (measureS tickedS).child_node_
        | _ => (eng.executeTick sys.child_node_).2)) := by
  intro measured tickedQ tickedS
  have htraceQ :
      (QRNode.tick eng measureQ q).trace =
        match QRNode.childStatus eng measureQ q with
        | NodeStatus.SUCCESS =>
          [Event.setStatus NodeStatus.RUNNING, Event.calculate_measure, Event.executeTick,
            Event.calculate_measure, Event.resetChild]
        | NodeStatus.FAILURE =>
          [Event.setStatus NodeStatus.RUNNING, Event.calculate_measure, Event.executeTick,
            Event.resetChild]
        | _ => [Event.setStatus NodeStatus.RUNNING, Event.calculate_measure, Event.executeTick] := by
    simp only [QRNode.childStatus, QRNode.tick, Frame.call]
    generalize (eng.executeTick (measureQ (QRNode.setStatus NodeStatus.RUNNING q)).child_node_).1
      = s
    cases s <;> rfl
  have hnodeQ :
      (QRNode.tick eng measureQ q).node =
        match QRNode.childStatus eng measureQ q with
        | NodeStatus.SUCCESS =>
          QRNode.resetChild eng (measureQ (QRNode.tickChild eng
            (measureQ (QRNode.setStatus NodeStatus.RUNNING q))))
        | NodeStatus.FAILURE =>
          QRNode.resetChild eng (QRNode.tickChild eng
            (measureQ (QRNode.setStatus NodeStatus.RUNNING q)))
        | _ => QRNode.tickChild eng (measureQ (QRNode.setStatus NodeStatus.RUNNING q)) := by
    simp only [QRNode.childStatus, QRNode.tick, Frame.call]
    generalize (eng.executeTick (measureQ (QRNode.setStatus NodeStatus.RUNNING q)).child_node_).1
      = s
    cases s <;> rfl
  have htraceS :
      (SystemLevelQR.tick eng measureS sys).trace =
        match SystemLevelQR.childStatus eng sys with
        | NodeStatus.SUCCESS =>
          [Event.setStatus NodeStatus.RUNNING, Event.executeTick, Event.resetChild]
        | NodeStatus.FAILURE =>
          [Event.setStatus NodeStatus.RUNNING, Event.executeTick, Event.resetChild]
        | NodeStatus.RUNNING =>
          [Event.setStatus NodeStatus.RUNNING, Event.executeTick, Event.calculate_measure]
        | _ => [Event.setStatus NodeStatus.RUNNING, Event.executeTick] := by
    simp only [SystemLevelQR.childStatus, SystemLevelQR.tick, Frame.call,
      SystemLevelQR.setStatus]
    generalize (eng.executeTick sys.child_node_).1 = s
    cases s <;> rfl
  have hnodeS :
      (SystemLevelQR.tick eng measureS sys).node =
        match SystemLevelQR.childStatus eng sys with
        | NodeStatus.SUCCESS =>
          SystemLevelQR.resetChild eng (SystemLevelQR.tickChild eng
            (SystemLevelQR.setStatus NodeStatus.RUNNING sys))
        | NodeStatus.FAILURE =>
          SystemLevelQR.resetChild eng (SystemLevelQR.tickChild eng
            (SystemLevelQR.setStatus NodeStatus.RUNNING sys))
        | NodeStatus.RUNNING =>
          measureS (SystemLevelQR.tickChild eng (SystemLevelQR.setStatus NodeStatus.RUNNING sys))
        | _ => SystemLevelQR.tickChild eng (SystemLevelQR.setStatus NodeStatus.RUNNING sys) := by
    simp only [SystemLevelQR.childStatus, SystemLevelQR.tick, Frame.call]
    generalize h : (eng.executeTick
      (SystemLevelQR.setStatus NodeStatus.RUNNING sys).child_node_).1 = s
    have h2 : (eng.executeTick sys.child_node_).1 = s := h
    rw [h2]
    cases s <;> rfl
  refine ⟨⟨?_, ?_⟩, ⟨rfl, ?_⟩, ⟨rfl, ?_⟩⟩
  · rw [htraceQ]
    generalize QRNode.childStatus eng measureQ q = s
    cases s <;> decide
  · rw [htraceS]
    generalize SystemLevelQR.childStatus eng sys = s
    cases s <;> decide
  · rw [hnodeQ]
    have hs : QRNode.childStatus eng measureQ q = (eng.executeTick measured.child_node_).1 :=
      rfl
    rw [hs]
    generalize (eng.executeTick measured.child_node_).1 = s
    cases s <;> rfl
  · rw [hnodeS]
    have hs : SystemLevelQR.childStatus eng sys = (eng.executeTick sys.child_node_).1 := rfl
    rw [hs]
    generalize (eng.executeTick sys.child_node_).1 = s
    cases s <;> rfl

/-- C14, as stated, fails: on a node whose count is the largest `int`,
`output_metric` does not leave the count one higher: the increment overflows,
and the count it leaves is lower, and negative. -/
theorem output_metric_overflows :
    saturatedQR._times_calculated = 2147483647 ∧
    (QRNode.output_metric saturatedQR)._times_calculated = -2147483648 ∧
    (QRNode.output_metric saturatedQR)._times_calculated ≠ saturatedQR._times_calculated + 1 ∧
    (QRNode.output_metric saturatedQR)._times_calculated < saturatedQR._times_calculated ∧
    (QRNode.output_metric saturatedQR)._times_calculated < 0 := by
  have h : (QRNode.output_metric saturatedQR)._times_calculated = -2147483648 := by
    simp [QRNode.output_metric, saturatedQR, wrapInt32]
  refine ⟨rfl, h, ?_, ?_, ?_⟩ <;> rw [h] <;> simp [saturatedQR]

/-- C14, amended: `_times_calculated` is 0 after construction; on a node whose
count is non-negative and below the largest `int`, `output_metric` leaves it
exactly one higher; `metric_mean`, the base `calculate_measure`, the two
`tick` methods with the base `calculate_measure`, `setStatus` and
`gather_child_metrics` leave it as it is, and a tick with another measurement
function does not lower it unless that function does. -/
theorem times_calculated_monotone (eng : Engine) (st : QRNode) (sys : SystemLevelQR)
    (h0 : 0 ≤ st._times_calculated) (h1 : st._times_calculated < 2147483647) :
    (∀ name child wp qa um uw uf,
      (QRNode.new name child wp qa um uw uf)._times_calculated = 0 ∧
      (SystemLevelQR.new name child wp qa um uw uf)._times_calculated = 0) ∧
    ((QRNode.output_metric st)._times_calculated = st._times_calculated + 1 ∧
      0 ≤ (QRNode.output_metric st)._times_calculated) ∧
    (QRNode.metric_mean st)._times_calculated = st._times_calculated ∧
    (QRNode.calculate_measure st)._times_calculated = st._times_calculated ∧
    (QRNode.tick eng QRNode.calculate_measure st).node._times_calculated
      = st._times_calculated ∧
    (SystemLevelQR.tick eng SystemLevelQR.calculate_measure sys).node._times_calculated
      = sys._times_calculated ∧
    sys.gather_child_metrics._times_calculated = sys._times_calculated ∧
    (∀ measure : QRNode → QRNode,
      (∀ s : QRNode, s._times_calculated ≤ (measure s)._times_calculated) →
      st._times_calculated ≤ (QRNode.tick eng measure st).node._times_calculated) := by
  have hbase : ∀ s : QRNode,
      (QRNode.calculate_measure s)._times_calculated = s._times_calculated := by
    intro s
    unfold QRNode.calculate_measure
    cases s.weight_port <;> rfl
  have hw : wrapInt32 (st._times_calculated + 1) = st._times_calculated + 1 :=
    wrapInt32_of_range _ (by omega) (by omega)
  refine ⟨fun _ _ _ _ _ _ _ => ⟨rfl, rfl⟩, ⟨?_, ?_⟩, rfl, hbase st, ?_, ?_, rfl, ?_⟩
  · simp [QRNode.output_metric, hw]
  · simp only [QRNode.output_metric, hw]; omega
  · rw [qrnode_tick_node]
    generalize QRNode.childStatus eng QRNode.calculate_measure st = s
    cases s <;>
      simp [QRNode.resetChild, QRNode.tickChild, QRNode.setStatus, hbase]
  · rw [system_tick_node]
    generalize SystemLevelQR.childStatus eng sys = s
    cases s <;>
      simp [SystemLevelQR.resetChild, SystemLevelQR.tickChild, SystemLevelQR.setStatus,
        SystemLevelQR.calculate_measure, hbase]
  · intro measure hm
    rw [qrnode_tick_node]
    have e0 : st._times_calculated
        = (QRNode.setStatus NodeStatus.RUNNING st)._times_calculated := rfl
    have e1 := hm (QRNode.setStatus NodeStatus.RUNNING st)
    have e2 := hm (QRNode.tickChild eng (measure (QRNode.setStatus NodeStatus.RUNNING st)))
    have e3 : (QRNode.tickChild eng
        (measure (QRNode.setStatus NodeStatus.RUNNING st)))._times_calculated
        = (measure (QRNode.setStatus NodeStatus.RUNNING st))._times_calculated := rfl
    generalize QRNode.childStatus eng measure st = s
    cases s <;> simp only [QRNode.resetChild] <;> omega

/-- Witness of the amended C14: the first `output_metric` of a fresh node. -/
theorem times_calculated_monotone_witness :
    (0 ≤ sampleQR._times_calculated ∧ sampleQR._times_calculated < 2147483647) ∧
    (QRNode.output_metric sampleQR)._times_calculated = sampleQR._times_calculated + 1 ∧
    (QRNode.tick (constEngine NodeStatus.SUCCESS) QRNode.calculate_measure
      sampleQR).node._times_calculated = sampleQR._times_calculated :=
  ⟨⟨by decide, by decide⟩,
   (times_calculated_monotone (constEngine NodeStatus.SUCCESS) sampleQR sampleSys
      (by decide) (by decide)).2.1.1,
   (times_calculated_monotone (constEngine NodeStatus.SUCCESS) sampleQR sampleSys
      (by decide) (by decide)).2.2.2.2.1⟩

/-- C15 (the base `calculate_measure` computes no metric): it leaves `_metric`,
`_average_metric`, `_times_calculated` and `_quality_attribute` as they are,
and so does a tick of a `QRNode` or `TaskLevelQR` that uses it, whatever the
child reports. -/
theorem base_calculate_measure_frame (eng : Engine) (st : QRNode) (task : TaskLevelQR) :
    ((QRNode.calculate_measure st)._metric = st._metric ∧
      (QRNode.calculate_measure st)._average_metric = st._average_metric ∧
      (QRNode.calculate_measure st)._times_calculated = st._times_calculated ∧
      (QRNode.calculate_measure st)._quality_attribute = st._quality_attribute) ∧
    ((QRNode.tick eng QRNode.calculate_measure st).node._metric = st._metric ∧
      (QRNode.tick eng QRNode.calculate_measure st).node._average_metric
        = st._average_metric ∧
      (QRNode.tick eng QRNode.calculate_measure st).node._times_calculated
        = st._times_calculated ∧
      (QRNode.tick eng QRNode.calculate_measure st).node._quality_attribute
        = st._quality_attribute) ∧
    ((QRNode.tick eng QRNode.calculate_measure task).node._metric = task._metric ∧
      (QRNode.tick eng QRNode.calculate_measure task).node._average_metric
        = task._average_metric ∧
      (QRNode.tick eng QRNode.calculate_measure task).node._times_calculated
        = task._times_calculated ∧
      (QRNode.tick eng QRNode.calculate_measure task).node._quality_attribute
        = task._quality_attribute) := by
  have hbase : ∀ s : QRNode,
      (QRNode.calculate_measure s)._metric = s._metric ∧
      (QRNode.calculate_measure s)._average_metric = s._average_metric ∧
      (QRNode.calculate_measure s)._times_calculated = s._times_calculated ∧
      (QRNode.calculate_measure s)._quality_attribute = s._quality_attribute := by
    intro s
    unfold QRNode.calculate_measure
    cases s.weight_port <;> exact ⟨rfl, rfl, rfl, rfl⟩
  have htick : ∀ s : QRNode,
      (QRNode.tick eng QRNode.calculate_measure s).node._metric = s._metric ∧
      (QRNode.tick eng QRNode.calculate_measure s).node._average_metric
        = s._average_metric ∧
      (QRNode.tick eng QRNode.calculate_measure s).node._times_calculated
        = s._times_calculated ∧
      (QRNode.tick eng QRNode.calculate_measure s).node._quality_attribute
        = s._quality_attribute := by
    intro s
    rw [qrnode_tick_node]
    generalize QRNode.childStatus eng QRNode.calculate_measure s = r
    cases r <;>
      simp [QRNode.resetChild, QRNode.tickChild, QRNode.setStatus, hbase]
  exact ⟨hbase st, htick st, htick task⟩

/-! ## Aggregation: merge, collisions, repetition -/

/-- Appending the visited node to a list rebuilds the list of the nodes. -/
theorem foldl_append_singleton (l : List TreeNode) :
    ∀ acc : List TreeNode, l.foldl (fun acc n => acc ++ [n]) acc = acc ++ l := by
  induction l with
  | nil => intro acc; simp
  | cons x xs ih => intro acc; simp [ih]

/-- The visitor invokes its callback on the nodes of the subtree in the order
of `TreeNode.nodes`. -/
theorem visitOrder_eq_nodes (t : TreeNode) : visitOrder t = t.nodes := by
  simp [visitOrder, applyRecursiveVisitor_eq_foldl, foldl_append_singleton]

/-- The fold started from two maps gives the same map when the two agree on
every key that no matching node of the list has. -/
theorem SystemLevelQR.fold_congr (qa : QualityAttribute) :
    ∀ (l : List TreeNode) (m m2 : MetricMap),
      (∀ k, (∀ n ∈ l, SystemLevelQR.isMatchingTask qa n = true → n.registrationName ≠ k) →
        m k = m2 k) →
      l.foldl (fun acc n => SystemLevelQR.node_visitor qa n acc) m
        = l.foldl (fun acc n => SystemLevelQR.node_visitor qa n acc) m2
  | [], m, m2, h => by
    funext k
    exact h k (by simp)
  | x :: xs, m, m2, h => by
    rw [List.foldl_cons, List.foldl_cons]
    apply SystemLevelQR.fold_congr qa xs
    intro k hk
    by_cases hx : SystemLevelQR.isMatchingTask qa x = true ∧ x.registrationName = k
    · obtain ⟨nm, v, c, rfl⟩ := (SystemLevelQR.isMatchingTask_iff qa x).1 hx.1
      have hk2 : k = nm := hx.2.symm
      simp [SystemLevelQR.node_visitor_apply, hk2]
    · rw [SystemLevelQR.node_visitor_frame qa x m k (fun h1 h2 => hx ⟨h1, h2⟩),
        SystemLevelQR.node_visitor_frame qa x m2 k (fun h1 h2 => hx ⟨h1, h2⟩)]
      apply h k
      intro n hn hmatch
      rcases List.mem_cons.1 hn with rfl | hn2
      · exact fun h2 => hx ⟨hmatch, h2⟩
      · exact hk n hn2 hmatch

/-- C16 (`gather_child_metrics` only inserts or overwrites): whatever the map
held and whatever the subtree, a key that was in `_sub_qr_metrics` before the
call is in it after the call, and a key that is not the registered name of a
matching `TaskLevelQR` of the subtree keeps its entry (or stays absent). -/
theorem gather_child_metrics_frame (sys : SystemLevelQR) (k : String) :
    (sys._sub_qr_metrics.contains k = true →
      sys.gather_child_metrics._sub_qr_metrics.contains k = true) ∧
    ((∀ n ∈ sys.child_node_.nodes,
        SystemLevelQR.isMatchingTask sys._quality_attribute n = true →
          n.registrationName ≠ k) →
      sys.gather_child_metrics._sub_qr_metrics k = sys._sub_qr_metrics k) := by
  constructor
  · intro h
    rw [MetricMap.contains, SystemLevelQR.gather_eq_foldl, SystemLevelQR.fold_keys]
    exact Or.inl h
  · intro h
    rw [SystemLevelQR.gather_eq_foldl]
    exact SystemLevelQR.fold_frame _ k _ _ h

/-- Witness of C16: on `collisionSys` the key "kept", which no matching node
has, is in the map before and after the pass, with the same entry. -/
theorem gather_child_metrics_frame_witness :
    (collisionSys._sub_qr_metrics.contains "kept" = true ∧
      ∀ n ∈ collisionSys.child_node_.nodes,
        SystemLevelQR.isMatchingTask collisionSys._quality_attribute n = true →
          n.registrationName ≠ "kept") ∧
    collisionSys.gather_child_metrics._sub_qr_metrics.contains "kept" = true ∧
    collisionSys.gather_child_metrics._sub_qr_metrics "kept"
      = collisionSys._sub_qr_metrics "kept" :=
  ⟨⟨by decide, by decide⟩,
   (gather_child_metrics_frame collisionSys "kept").1 (by decide),
   (gather_child_metrics_frame collisionSys "kept").2 (by decide)⟩

/-- C17 (name collisions): whatever the map held, when the matching
`TaskLevelQR` registered as `nm` with metric `v` is the last matching node of
that name on which the visitor invokes its callback (no matching node visited
after it has the name), `_sub_qr_metrics` has after the pass, at `nm`, the one
value `v`, however many matching nodes visited before it share the name. -/
theorem gather_name_collision (sys : SystemLevelQR) (before after : List TreeNode)
    (nm : String) (v : Dbl) (c : TreeNode)
    (hsplit : visitOrder sys.child_node_
      = before ++ TreeNode.taskLevelQR nm sys._quality_attribute v c :: after)
    (hlast : ∀ n ∈ after, SystemLevelQR.isMatchingTask sys._quality_attribute n = true →
      n.registrationName ≠ nm) :
    sys.gather_child_metrics._sub_qr_metrics nm = some v := by
  rw [visitOrder_eq_nodes] at hsplit
  rw [SystemLevelQR.gather_eq_foldl, hsplit, List.foldl_append, List.foldl_cons,
    SystemLevelQR.fold_frame _ nm after _ hlast]
  simp [SystemLevelQR.node_visitor_apply]

/-- Witness of C17: in `collisionTree` two matching nodes are registered as
"dup"; the second, with metric 2, is visited last, and the map, which held 8
at "dup", holds 2 after the pass. -/
theorem gather_name_collision_witness :
    (visitOrder collisionSys.child_node_ =
        [collisionTree,
         TreeNode.taskLevelQR "dup" QualityAttribute.Power (Dbl.fin 1)
           (TreeNode.taskLevelQR "dup" QualityAttribute.Power (Dbl.fin 2)
             (TreeNode.leaf "a"))] ++
        TreeNode.taskLevelQR "dup" collisionSys._quality_attribute (Dbl.fin 2)
            (TreeNode.leaf "a") ::
          [TreeNode.leaf "a",
           TreeNode.taskLevelQR "dup" QualityAttribute.Safety (Dbl.fin 3) (TreeNode.leaf "b"),
           TreeNode.leaf "b"] ∧
      ∀ n ∈ [TreeNode.leaf "a",
           TreeNode.taskLevelQR "dup" QualityAttribute.Safety (Dbl.fin 3) (TreeNode.leaf "b"),
           TreeNode.leaf "b"],
        SystemLevelQR.isMatchingTask collisionSys._quality_attribute n = true →
          n.registrationName ≠ "dup") ∧
    collisionSys.gather_child_metrics._sub_qr_metrics "dup" = some (Dbl.fin 2) :=
  ⟨⟨rfl, by decide⟩,
   gather_name_collision collisionSys
     [collisionTree,
      TreeNode.taskLevelQR "dup" QualityAttribute.Power (Dbl.fin 1)
        (TreeNode.taskLevelQR "dup" QualityAttribute.Power (Dbl.fin 2) (TreeNode.leaf "a"))]
     [TreeNode.leaf "a",
      TreeNode.taskLevelQR "dup" QualityAttribute.Safety (Dbl.fin 3) (TreeNode.leaf "b"),
      TreeNode.leaf "b"]
     "dup" (Dbl.fin 2) (TreeNode.leaf "a") rfl (by decide)⟩

/-- C18 (`gather_child_metrics` is idempotent): whatever the map held and
whatever the subtree, a second pass right after a first, on the same subtree
with the same metrics, leaves the object, and so `_sub_qr_metrics`, as the
first pass left it. -/
theorem gather_child_metrics_idempotent (sys : SystemLevelQR) :
    sys.gather_child_metrics.gather_child_metrics = sys.gather_child_metrics ∧
    sys.gather_child_metrics.gather_child_metrics._sub_qr_metrics
      = sys.gather_child_metrics._sub_qr_metrics := by
  have hmap : sys.gather_child_metrics.gather_child_metrics._sub_qr_metrics
      = sys.gather_child_metrics._sub_qr_metrics := by
    rw [SystemLevelQR.gather_eq_foldl sys.gather_child_metrics]
    have hc : sys.gather_child_metrics.child_node_ = sys.child_node_ := rfl
    have hq : sys.gather_child_metrics._quality_attribute = sys._quality_attribute := rfl
    rw [hc, hq, SystemLevelQR.gather_eq_foldl sys]
    apply SystemLevelQR.fold_congr
    intro k hk
    exact SystemLevelQR.fold_frame _ k _ _ hk
  refine ⟨?_, hmap⟩
  have e : sys.gather_child_metrics.gather_child_metrics =
      { sys.gather_child_metrics with
        _sub_qr_metrics := sys.gather_child_metrics.gather_child_metrics._sub_qr_metrics } :=
    rfl
  rw [e, hmap]

end BT
